import Mathlib

/-!
Shallow embedding of the file-upload orchestration of the notion-client
repository (src/endpoints/file_uploads/helpers.rs and the request types in
src/endpoints/file_uploads/{create,send}/request.rs).

Modelling choices:
* Byte buffers (`Vec<u8>`, `&[u8]`) are `List Nat`.
* The three remote endpoints consumed by the orchestrator
  (`create_file_upload`, `send_file_upload`, `complete_file_upload`,
  which are plain HTTP glue) are an oracle `Gateway` whose answers are
  fixed per run; the orchestrator records every call it makes in a trace
  of `Event`s and threads errors exactly as the `?` operator does.
* An `AsyncRead` reader is a list of byte segments: each call to
  `read(&mut buffer)` returns up to `buffer.len()` bytes from the front
  segment (so short reads are representable, as the `AsyncRead` contract
  allows), and returns 0 bytes when the buffer is empty or the source is
  exhausted.  Reads themselves are modelled as infallible; the fallible
  remote calls are the oracle's.
* `part_number` is a Rust `u32`; the cast `(index + 1) as u32` and the
  wrapping increment are modelled by reducing the sent part number
  modulo 2^32.
-/

namespace NotionUpload

/-- Modulus of the Rust u32 type used for part numbers. -/
def U32_MOD : Nat := 4294967296

/-- Threshold from helpers.rs: 20MB threshold for auto-selecting upload mode. -/
def MULTIPART_THRESHOLD : Nat := 20 * 1024 * 1024

/-- Constant from helpers.rs: 5MB chunk size for multi-part uploads. -/
def CHUNK_SIZE : Nat := 5 * 1024 * 1024

/-- Upload mode for file uploads (create/request.rs). -/
inductive UploadMode
  | singlePart
  | multiPart
deriving DecidableEq, Repr

/-- Request to create a file upload (create/request.rs). -/
structure CreateFileUploadRequest where
  filename : String
  content_type : String
  content_length : Nat
  mode : UploadMode
deriving DecidableEq, Repr

/-- Constructor CreateFileUploadRequest::new. -/
def CreateFileUploadRequest.new (filename content_type : String)
    (content_length : Nat) (mode : UploadMode) : CreateFileUploadRequest :=
  ⟨filename, content_type, content_length, mode⟩

/-- Request to send file content to a file upload (send/request.rs). -/
structure SendFileUploadRequest where
  filename : String
  content_type : String
  file_data : List Nat
  part_number : Option Nat
deriving DecidableEq, Repr

/-- Constructor SendFileUploadRequest::single_part. -/
def SendFileUploadRequest.single_part (filename content_type : String)
    (file_data : List Nat) : SendFileUploadRequest :=
  ⟨filename, content_type, file_data, none⟩

/-- Constructor SendFileUploadRequest::multi_part.  The Rust field is a u32,
so the stored value is the argument reduced modulo 2^32 (the callers in
helpers.rs produce it by an `as u32` cast or a wrapping increment). -/
def SendFileUploadRequest.multi_part (filename content_type : String)
    (file_data : List Nat) (part_number : Nat) : SendFileUploadRequest :=
  ⟨filename, content_type, file_data, some (part_number % U32_MOD)⟩

/-- Configuration for streaming multipart uploads (send/request.rs). -/
structure StreamingUploadConfig where
  filename : String
  content_type : String
  total_size : Option Nat
  chunk_size : Nat
deriving DecidableEq, Repr

/-- Constructor StreamingUploadConfig::new (known size, default 5MB chunks). -/
def StreamingUploadConfig.new (filename content_type : String)
    (total_size : Nat) : StreamingUploadConfig :=
  ⟨filename, content_type, some total_size, 5 * 1024 * 1024⟩

/-- Constructor StreamingUploadConfig::for_unknown_size. -/
def StreamingUploadConfig.for_unknown_size (filename content_type : String) :
    StreamingUploadConfig :=
  ⟨filename, content_type, none, 5 * 1024 * 1024⟩

/-- Method StreamingUploadConfig::with_chunk_size: sets the field with no
validation of the value. -/
def StreamingUploadConfig.with_chunk_size (c : StreamingUploadConfig)
    (chunk_size : Nat) : StreamingUploadConfig :=
  { c with chunk_size := chunk_size }

/-- Method StreamingUploadConfig::has_known_size. -/
def StreamingUploadConfig.has_known_size (c : StreamingUploadConfig) : Bool :=
  c.total_size.isSome

/-- Status of a file upload (objects/file_upload.rs). -/
inductive FileUploadStatus
  | pending
  | processing
  | complete
  | failed
deriving DecidableEq, Repr

/-- A file upload object returned by the remote side (objects/file_upload.rs).
Only the fields the orchestrator reads (`id`) plus the status are kept; the
remaining metadata fields (timestamps, creator, ...) are never consulted by
the code under verification. -/
structure FileUpload where
  id : String
  status : FileUploadStatus
deriving DecidableEq, Repr

/-- Kind of a local I/O error, mirroring std::io::ErrorKind as far as the
helpers use it. -/
inductive IoErrorKind
  | invalidInput
  | otherKind
deriving DecidableEq, Repr

/-- Error type as used by the upload helpers.  `ioError` mirrors
NotionClientError::IoError { source: std::io::Error }; `remote` stands for
any error value produced by the HTTP endpoint glue (FailedToRequest and
friends), whose payload the orchestrator only passes through. -/
inductive NotionClientError
  | ioError (kind : IoErrorKind) (message : String)
  | remote (code : Nat)
deriving DecidableEq, Repr

/-- Message of the error returned by upload_file_single_part_stream when the
configured total size is unknown (helpers.rs lines 173-178). -/
def singlePartUnknownSizeMessage : String :=
  "Single-part uploads require known file size. Use upload_file_auto_stream() or upload_file_multi_part_stream() for unknown-size streams."

/-- One remote call made by the orchestrator, recorded in order. -/
inductive Event
  | createCall (req : CreateFileUploadRequest)
  | sendCall (upload_id : String) (req : SendFileUploadRequest)
  | completeCall (upload_id : String)
deriving DecidableEq, Repr

/-- Oracle for the three remote endpoints.  `createResult` is the answer to
the (single) create_file_upload call, `sendResult i` the answer to the i-th
send_file_upload call of the run (0-based), `completeResult` the answer to
the (single) complete_file_upload call. -/
structure Gateway where
  createResult : Except NotionClientError FileUpload
  sendResult : Nat → Except NotionClientError Unit
  completeResult : Except NotionClientError FileUpload

/-- Worker for `chunksList`, structurally recursive on a fuel argument so
that the kernel can evaluate it; any fuel at least `l.length` is enough when
the chunk size is positive. -/
def chunksGo (c : Nat) : Nat → List Nat → List (List Nat)
  | _, [] => []
  | 0, _ => []
  | fuel + 1, l => l.take c :: chunksGo c fuel (l.drop c)

/-- Rust slice::chunks as used on the buffer path: splits into slices of
length `c`, the last possibly shorter, none empty.  Rust panics for c = 0;
the orchestrator only calls this with the constant CHUNK_SIZE, so the c = 0
branch here is arbitrary. -/
def chunksList (c : Nat) (l : List Nat) : List (List Nat) :=
  if c = 0 then [] else chunksGo c l.length l

/-- Worker for `readsOf`, structurally recursive on a fuel argument; any fuel
at least the total number of source bytes is enough when the buffer size is
positive. -/
def readsGo (c : Nat) : Nat → List (List Nat) → List (List Nat)
  | _, [] => []
  | 0, _ => []
  | fuel + 1, s :: rest =>
    if c = 0 ∨ s = [] then []
    else s.take c :: readsGo c fuel (if s.drop c = [] then rest else s.drop c :: rest)

/-- Sequence of non-empty reads the multi-part stream loop performs before
hitting end-of-stream, reading into a buffer of size `c`: each read takes at
most `c` bytes from the front segment; a read that returns 0 bytes (empty
buffer, exhausted source, or a source that signals end-of-stream) stops the
loop. -/
def readsOf (c : Nat) (src : List (List Nat)) : List (List Nat) :=
  readsGo c (src.map List.length).sum src

/-- Loop sending one multi_part request per chunk (the for-loop of
upload_file_with_request and the read-send loop of upload_file_with_stream):
consults the oracle for each send in order, stops at the first error and
reports it, makes no further calls after a failure.  `pn` is the part number
for the next chunk, `idx` the oracle index of the next send call. -/
def sendParts (gw : Gateway) (upload_id filename content_type : String) :
    List (List Nat) → Nat → Nat → List Event × Option NotionClientError
  | [], _, _ => ([], none)
  | chunk :: rest, pn, idx =>
    let req := SendFileUploadRequest.multi_part filename content_type chunk pn
    match gw.sendResult idx with
    | .error e => ([Event.sendCall upload_id req], some e)
    | .ok _ =>
      let r := sendParts gw upload_id filename content_type rest (pn + 1) (idx + 1)
      (Event.sendCall upload_id req :: r.1, r.2)

/-- Method upload_file_with_request (helpers.rs lines 74-113): create the
upload, then either one single_part send, or one multi_part send per
CHUNK_SIZE chunk followed by complete_file_upload. -/
def upload_file_with_request (gw : Gateway) (request : CreateFileUploadRequest)
    (file_data : List Nat) : List Event × Except NotionClientError FileUpload :=
  match gw.createResult with
  | .error e => ([Event.createCall request], .error e)
  | .ok file_upload =>
    match request.mode with
    | .singlePart =>
      let send_request :=
        SendFileUploadRequest.single_part request.filename request.content_type file_data
      match gw.sendResult 0 with
      | .error e =>
        ([Event.createCall request, Event.sendCall file_upload.id send_request], .error e)
      | .ok _ =>
        ([Event.createCall request, Event.sendCall file_upload.id send_request], .ok file_upload)
    | .multiPart =>
      let chunks := chunksList CHUNK_SIZE file_data
      let r := sendParts gw file_upload.id request.filename request.content_type chunks 1 0
      match r.2 with
      | some e => (Event.createCall request :: r.1, .error e)
      | none =>
        match gw.completeResult with
        | .error e =>
          (Event.createCall request :: (r.1 ++ [Event.completeCall file_upload.id]), .error e)
        | .ok completed =>
          (Event.createCall request :: (r.1 ++ [Event.completeCall file_upload.id]), .ok completed)

/-- Method upload_file_with_stream (helpers.rs lines 254-314): create the
upload, then for single_part read the whole stream to one buffer and send it
once; for multi_part run the read-send loop with the configured chunk size,
then complete_file_upload. -/
def upload_file_with_stream (gw : Gateway) (src : List (List Nat))
    (request : CreateFileUploadRequest) (config : StreamingUploadConfig) :
    List Event × Except NotionClientError FileUpload :=
  match gw.createResult with
  | .error e => ([Event.createCall request], .error e)
  | .ok file_upload =>
    match request.mode with
    | .singlePart =>
      let file_data := src.flatten
      let send_request :=
        SendFileUploadRequest.single_part config.filename config.content_type file_data
      match gw.sendResult 0 with
      | .error e =>
        ([Event.createCall request, Event.sendCall file_upload.id send_request], .error e)
      | .ok _ =>
        ([Event.createCall request, Event.sendCall file_upload.id send_request], .ok file_upload)
    | .multiPart =>
      let reads := readsOf config.chunk_size src
      let r := sendParts gw file_upload.id config.filename config.content_type reads 1 0
      match r.2 with
      | some e => (Event.createCall request :: r.1, .error e)
      | none =>
        match gw.completeResult with
        | .error e =>
          (Event.createCall request :: (r.1 ++ [Event.completeCall file_upload.id]), .error e)
        | .ok completed =>
          (Event.createCall request :: (r.1 ++ [Event.completeCall file_upload.id]), .ok completed)

/-- Request built by upload_file_auto (helpers.rs lines 22-36).  The filename
and MIME type that from_file_path derives from the path are taken as given
strings. -/
def upload_file_auto_request (filename content_type : String)
    (file_data : List Nat) : CreateFileUploadRequest :=
  let content_length := file_data.length
  let mode :=
    if content_length ≥ MULTIPART_THRESHOLD then UploadMode.multiPart
    else UploadMode.singlePart
  CreateFileUploadRequest.new filename content_type content_length mode

/-- Method upload_file_auto. -/
def upload_file_auto (gw : Gateway) (filename content_type : String)
    (file_data : List Nat) : List Event × Except NotionClientError FileUpload :=
  upload_file_with_request gw (upload_file_auto_request filename content_type file_data) file_data

/-- Method upload_file_single_part (helpers.rs lines 41-53). -/
def upload_file_single_part (gw : Gateway) (filename content_type : String)
    (file_data : List Nat) : List Event × Except NotionClientError FileUpload :=
  upload_file_with_request gw
    (CreateFileUploadRequest.new filename content_type file_data.length UploadMode.singlePart)
    file_data

/-- Method upload_file_multi_part (helpers.rs lines 59-71). -/
def upload_file_multi_part (gw : Gateway) (filename content_type : String)
    (file_data : List Nat) : List Event × Except NotionClientError FileUpload :=
  upload_file_with_request gw
    (CreateFileUploadRequest.new filename content_type file_data.length UploadMode.multiPart)
    file_data

/-- Request built by upload_file_auto_stream (helpers.rs lines 144-156). -/
def upload_file_auto_stream_request (config : StreamingUploadConfig) :
    CreateFileUploadRequest :=
  let mode :=
    match config.total_size with
    | some size =>
      if size ≥ MULTIPART_THRESHOLD then UploadMode.multiPart else UploadMode.singlePart
    | none => UploadMode.multiPart
  CreateFileUploadRequest.new config.filename config.content_type
    (config.total_size.getD 0) mode

/-- Method upload_file_auto_stream. -/
def upload_file_auto_stream (gw : Gateway) (src : List (List Nat))
    (config : StreamingUploadConfig) : List Event × Except NotionClientError FileUpload :=
  upload_file_with_stream gw src (upload_file_auto_stream_request config) config

/-- Method upload_file_single_part_stream (helpers.rs lines 165-189): with an
unknown total size it returns the InvalidInput I/O error before making any
remote call. -/
def upload_file_single_part_stream (gw : Gateway) (src : List (List Nat))
    (config : StreamingUploadConfig) : List Event × Except NotionClientError FileUpload :=
  match config.total_size with
  | none =>
    ([], .error (NotionClientError.ioError IoErrorKind.invalidInput singlePartUnknownSizeMessage))
  | some total_size =>
    upload_file_with_stream gw src
      (CreateFileUploadRequest.new config.filename config.content_type total_size
        UploadMode.singlePart)
      config

/-- Method upload_file_multi_part_stream (helpers.rs lines 195-209). -/
def upload_file_multi_part_stream (gw : Gateway) (src : List (List Nat))
    (config : StreamingUploadConfig) : List Event × Except NotionClientError FileUpload :=
  upload_file_with_stream gw src
    (CreateFileUploadRequest.new config.filename config.content_type
      (config.total_size.getD 0) UploadMode.multiPart)
    config

/-- Request built by upload_stream_unknown_size (helpers.rs lines 237-251):
content_length is the literal 0, whatever config.total_size holds. -/
def upload_stream_unknown_size_request (config : StreamingUploadConfig) :
    CreateFileUploadRequest :=
  CreateFileUploadRequest.new config.filename config.content_type 0 UploadMode.multiPart

/-- Method upload_stream_unknown_size. -/
def upload_stream_unknown_size (gw : Gateway) (src : List (List Nat))
    (config : StreamingUploadConfig) : List Event × Except NotionClientError FileUpload :=
  upload_file_with_stream gw src (upload_stream_unknown_size_request config) config

/-- The send_file_upload requests of a trace, in call order. -/
def sendEvents (t : List Event) : List SendFileUploadRequest :=
  t.filterMap fun e =>
    match e with
    | Event.sendCall _ r => some r
    | _ => none

/-- The part numbers passed to send_file_upload, in call order (absent part
numbers are skipped). -/
def partNumbers (t : List Event) : List Nat :=
  (sendEvents t).filterMap (fun r => r.part_number)

/-- Concatenation, in call order, of the byte buffers passed to
send_file_upload. -/
def sentBytes (t : List Event) : List Nat :=
  ((sendEvents t).map (fun r => r.file_data)).flatten

/-- Number of complete_file_upload calls in a trace. -/
def completeCalls (t : List Event) : Nat :=
  (t.filter fun e =>
    match e with
    | Event.completeCall _ => true
    | _ => false).length

/-- Number of create_file_upload calls in a trace. -/
def createCalls (t : List Event) : Nat :=
  (t.filter fun e =>
    match e with
    | Event.createCall _ => true
    | _ => false).length

/-- Gateway whose every call succeeds, used for concrete runs. -/
def allOkGateway : Gateway :=
  ⟨.ok ⟨"upload-1", FileUploadStatus.pending⟩,
   fun _ => .ok (),
   .ok ⟨"upload-1", FileUploadStatus.complete⟩⟩

/-! Small computation rules for the request constructors and the trace
observers. -/

@[simp]
theorem single_part_part_number (fn ct : String) (d : List Nat) :
    (SendFileUploadRequest.single_part fn ct d).part_number = none := rfl

@[simp]
theorem single_part_file_data (fn ct : String) (d : List Nat) :
    (SendFileUploadRequest.single_part fn ct d).file_data = d := rfl

@[simp]
theorem multi_part_part_number (fn ct : String) (d : List Nat) (pn : Nat) :
    (SendFileUploadRequest.multi_part fn ct d pn).part_number = some (pn % U32_MOD) := rfl

@[simp]
theorem multi_part_file_data (fn ct : String) (d : List Nat) (pn : Nat) :
    (SendFileUploadRequest.multi_part fn ct d pn).file_data = d := rfl

@[simp]
theorem sendEvents_nil : sendEvents [] = [] := rfl

@[simp]
theorem sendEvents_cons_create (req : CreateFileUploadRequest) (t : List Event) :
    sendEvents (Event.createCall req :: t) = sendEvents t := rfl

@[simp]
theorem sendEvents_cons_send (uid : String) (r : SendFileUploadRequest) (t : List Event) :
    sendEvents (Event.sendCall uid r :: t) = r :: sendEvents t := rfl

@[simp]
theorem sendEvents_cons_complete (uid : String) (t : List Event) :
    sendEvents (Event.completeCall uid :: t) = sendEvents t := rfl

@[simp]
theorem sendEvents_append (t₁ t₂ : List Event) :
    sendEvents (t₁ ++ t₂) = sendEvents t₁ ++ sendEvents t₂ := by
  simp [sendEvents]

@[simp]
theorem completeCalls_nil : completeCalls [] = 0 := rfl

@[simp]
theorem completeCalls_cons_create (req : CreateFileUploadRequest) (t : List Event) :
    completeCalls (Event.createCall req :: t) = completeCalls t := rfl

@[simp]
theorem completeCalls_cons_send (uid : String) (r : SendFileUploadRequest) (t : List Event) :
    completeCalls (Event.sendCall uid r :: t) = completeCalls t := rfl

@[simp]
theorem completeCalls_cons_complete (uid : String) (t : List Event) :
    completeCalls (Event.completeCall uid :: t) = completeCalls t + 1 := by
  simp [completeCalls]

@[simp]
theorem completeCalls_append (t₁ t₂ : List Event) :
    completeCalls (t₁ ++ t₂) = completeCalls t₁ + completeCalls t₂ := by
  simp [completeCalls]

@[simp]
theorem createCalls_nil : createCalls [] = 0 := rfl

@[simp]
theorem createCalls_cons_create (req : CreateFileUploadRequest) (t : List Event) :
    createCalls (Event.createCall req :: t) = createCalls t + 1 := by
  simp [createCalls]

@[simp]
theorem createCalls_cons_send (uid : String) (r : SendFileUploadRequest) (t : List Event) :
    createCalls (Event.sendCall uid r :: t) = createCalls t := rfl

@[simp]
theorem createCalls_cons_complete (uid : String) (t : List Event) :
    createCalls (Event.completeCall uid :: t) = createCalls t := rfl

@[simp]
theorem createCalls_append (t₁ t₂ : List Event) :
    createCalls (t₁ ++ t₂) = createCalls t₁ + createCalls t₂ := by
  simp [createCalls]

/-- Trace the send loop produces when the first `chunks.length` sends all
succeed: one sendCall per chunk with consecutive part numbers from `pn`. -/
def mkSendEvents (uid fn ct : String) : List (List Nat) → Nat → List Event
  | [], _ => []
  | chunk :: rest, pn =>
    Event.sendCall uid (SendFileUploadRequest.multi_part fn ct chunk pn) ::
      mkSendEvents uid fn ct rest (pn + 1)

theorem mkSendEvents_sendEvents (uid fn ct : String) :
    ∀ (chunks : List (List Nat)) (pn : Nat),
      sendEvents (mkSendEvents uid fn ct chunks pn)
        = chunks.zipWith (fun chunk k => SendFileUploadRequest.multi_part fn ct chunk k)
            (List.range' pn chunks.length) := by
  intro chunks
  induction chunks with
  | nil => intro pn; rfl
  | cons chunk rest ih =>
    intro pn
    rw [List.length_cons, List.range'_succ]
    simp [mkSendEvents, ih (pn + 1)]

theorem mkSendEvents_partNumbers (uid fn ct : String) (chunks : List (List Nat)) (pn : Nat) :
    partNumbers (mkSendEvents uid fn ct chunks pn)
      = (List.range' pn chunks.length).map (fun k => k % U32_MOD) := by
  induction chunks generalizing pn with
  | nil => rfl
  | cons chunk rest ih =>
    rw [List.length_cons, List.range'_succ]
    simp [partNumbers, mkSendEvents] at ih ⊢
    exact ih (pn + 1)

theorem mkSendEvents_file_datas (uid fn ct : String) (chunks : List (List Nat)) (pn : Nat) :
    (sendEvents (mkSendEvents uid fn ct chunks pn)).map (fun r => r.file_data) = chunks := by
  induction chunks generalizing pn with
  | nil => rfl
  | cons chunk rest ih => simp [mkSendEvents, ih (pn + 1)]

theorem mkSendEvents_sendCount (uid fn ct : String) (chunks : List (List Nat)) (pn : Nat) :
    (sendEvents (mkSendEvents uid fn ct chunks pn)).length = chunks.length := by
  induction chunks generalizing pn with
  | nil => rfl
  | cons chunk rest ih => simp [mkSendEvents, ih (pn + 1)]

theorem mkSendEvents_completeCalls (uid fn ct : String) (chunks : List (List Nat)) (pn : Nat) :
    completeCalls (mkSendEvents uid fn ct chunks pn) = 0 := by
  induction chunks generalizing pn with
  | nil => rfl
  | cons chunk rest ih => simp [mkSendEvents, ih (pn + 1)]

theorem mkSendEvents_createCalls (uid fn ct : String) (chunks : List (List Nat)) (pn : Nat) :
    createCalls (mkSendEvents uid fn ct chunks pn) = 0 := by
  induction chunks generalizing pn with
  | nil => rfl
  | cons chunk rest ih => simp [mkSendEvents, ih (pn + 1)]

theorem mkSendEvents_sentBytes (uid fn ct : String) (chunks : List (List Nat)) (pn : Nat) :
    sentBytes (mkSendEvents uid fn ct chunks pn) = chunks.flatten := by
  rw [sentBytes, mkSendEvents_file_datas]

/-! Behaviour of the send loop under the two oracle shapes the claims need:
all sends succeed, or the sends succeed up to a first failure. -/

theorem sendParts_allOk (gw : Gateway) (uid fn ct : String)
    (h : ∀ i, gw.sendResult i = Except.ok ()) (chunks : List (List Nat)) (pn idx : Nat) :
    sendParts gw uid fn ct chunks pn idx = (mkSendEvents uid fn ct chunks pn, none) := by
  induction chunks generalizing pn idx with
  | nil => rfl
  | cons chunk rest ih =>
    simp only [sendParts, h idx, ih (pn + 1) (idx + 1), mkSendEvents]

theorem sendParts_failAt (gw : Gateway) (uid fn ct : String) (e : NotionClientError)
    (chunks : List (List Nat)) (m pn idx : Nat) (hm : m < chunks.length)
    (hok : ∀ i, i < m → gw.sendResult (idx + i) = Except.ok ())
    (herr : gw.sendResult (idx + m) = Except.error e) :
    sendParts gw uid fn ct chunks pn idx
      = (mkSendEvents uid fn ct (chunks.take (m + 1)) pn, some e) := by
  induction chunks generalizing m pn idx with
  | nil => simp at hm
  | cons chunk rest ih =>
    cases m with
    | zero =>
      have h0 : gw.sendResult idx = Except.error e := by simpa using herr
      simp only [sendParts, h0, List.take_succ_cons, List.take_zero, mkSendEvents]
    | succ m' =>
      have h0 : gw.sendResult idx = Except.ok () := by
        have := hok 0 (Nat.succ_pos m')
        simpa using this
      have hok' : ∀ i, i < m' → gw.sendResult (idx + 1 + i) = Except.ok () := by
        intro i hi
        have := hok (i + 1) (by omega)
        have harith : idx + (i + 1) = idx + 1 + i := by omega
        rwa [harith] at this
      have herr' : gw.sendResult (idx + 1 + m') = Except.error e := by
        have harith : idx + (m' + 1) = idx + 1 + m' := by omega
        rwa [harith] at herr
      have ihr := ih m' (pn + 1) (idx + 1) (by simpa using hm) hok' herr'
      simp only [sendParts, h0, ihr, List.take_succ_cons, mkSendEvents]

/-! Recursion equations for `chunksList` and `readsOf`, recovering the loop
structure of the source from the fuelled workers. -/

theorem chunksGo_nil (c : Nat) : ∀ f, chunksGo c f [] = [] := by
  intro f
  cases f <;> rfl

theorem chunksGo_congr (c : Nat) (hc : c ≠ 0) :
    ∀ f₁ f₂ (l : List Nat), l.length ≤ f₁ → l.length ≤ f₂ →
      chunksGo c f₁ l = chunksGo c f₂ l := by
  intro f₁
  induction f₁ with
  | zero =>
    intro f₂ l h1 _
    have hnil : l = [] := List.length_eq_zero.mp (Nat.le_zero.mp h1)
    subst hnil
    simp [chunksGo_nil]
  | succ f ih =>
    intro f₂ l h1 h2
    cases l with
    | nil => simp [chunksGo_nil]
    | cons x xs =>
      cases f₂ with
      | zero => simp at h2
      | succ f₂' =>
        have hcpos : 0 < c := Nat.pos_of_ne_zero hc
        simp only [chunksGo]
        congr 1
        apply ih
        · simp only [List.length_drop, List.length_cons]
          simp only [List.length_cons] at h1
          omega
        · simp only [List.length_drop, List.length_cons]
          simp only [List.length_cons] at h2
          omega

theorem chunksList_nil (c : Nat) : chunksList c [] = [] := by
  unfold chunksList
  split <;> simp [chunksGo_nil]

theorem chunksList_cons (c : Nat) (hc : c ≠ 0) (l : List Nat) (hl : l ≠ []) :
    chunksList c l = l.take c :: chunksList c (l.drop c) := by
  have hcpos : 0 < c := Nat.pos_of_ne_zero hc
  obtain ⟨x, xs, rfl⟩ : ∃ x xs, l = x :: xs := by
    cases l with
    | nil => exact absurd rfl hl
    | cons x xs => exact ⟨x, xs, rfl⟩
  simp only [chunksList, if_neg hc, List.length_cons]
  simp only [chunksGo]
  congr 1
  apply chunksGo_congr c hc
  · simp only [List.length_drop, List.length_cons]
    omega
  · exact le_rfl

theorem chunksList_flatten (c : Nat) (hc : c ≠ 0) (l : List Nat) :
    (chunksList c l).flatten = l := by
  by_cases hl : l = []
  · subst hl
    simp [chunksList_nil]
  · rw [chunksList_cons c hc l hl]
    have ih := chunksList_flatten c hc (l.drop c)
    simp [ih]
termination_by l.length
decreasing_by
  have h1 : 0 < l.length := List.length_pos.mpr hl
  have h2 : 0 < c := Nat.pos_of_ne_zero hc
  simp only [List.length_drop]
  omega

theorem chunksList_length (c : Nat) (hc : c ≠ 0) (l : List Nat) :
    (chunksList c l).length = (l.length + c - 1) / c := by
  have hcpos : 0 < c := Nat.pos_of_ne_zero hc
  by_cases hl : l = []
  · subst hl
    simp [chunksList_nil, Nat.div_eq_of_lt (show c - 1 < c by omega)]
  · rw [chunksList_cons c hc l hl]
    have ih := chunksList_length c hc (l.drop c)
    have hlpos : 0 < l.length := List.length_pos.mpr hl
    simp only [List.length_cons, ih, List.length_drop]
    rcases Nat.lt_or_ge c l.length with hgt | hle
    · have h3 : l.length + c - 1 = (l.length - 1) + c := by omega
      have h5 : l.length - c + c - 1 = (l.length - c - 1) + c := by omega
      rw [h3, h5, Nat.add_div_right _ hcpos, Nat.add_div_right _ hcpos]
      have h6 : l.length - 1 = (l.length - c - 1) + c := by omega
      rw [h6, Nat.add_div_right _ hcpos]
    · have h1 : l.length - c = 0 := by omega
      rw [h1]
      have h2 : (0 + c - 1) / c = 0 := Nat.div_eq_of_lt (by omega)
      rw [h2]
      have h3 : l.length + c - 1 = (l.length - 1) + c := by omega
      rw [h3, Nat.add_div_right _ hcpos]
      have h4 : (l.length - 1) / c = 0 := Nat.div_eq_of_lt (by omega)
      omega
termination_by l.length
decreasing_by
  have h1 : 0 < l.length := List.length_pos.mpr hl
  simp only [List.length_drop]
  omega

theorem readsGo_nil (c : Nat) : ∀ f, readsGo c f [] = [] := by
  intro f
  cases f <;> rfl

theorem readsGo_congr (c : Nat) (hc : c ≠ 0) :
    ∀ f₁ f₂ (src : List (List Nat)),
      (src.map List.length).sum ≤ f₁ → (src.map List.length).sum ≤ f₂ →
      readsGo c f₁ src = readsGo c f₂ src := by
  intro f₁
  induction f₁ with
  | zero =>
    intro f₂ src h1 _
    cases src with
    | nil => simp [readsGo_nil]
    | cons s rest =>
      have hs : s = [] := by
        simp only [List.map_cons, List.sum_cons] at h1
        exact List.length_eq_zero.mp (by omega)
      subst hs
      cases f₂ with
      | zero => rfl
      | succ f => simp [readsGo]
  | succ f ih =>
    intro f₂ src h1 h2
    cases src with
    | nil => simp [readsGo_nil]
    | cons s rest =>
      by_cases hs : s = []
      · subst hs
        cases f₂ with
        | zero => simp [readsGo]
        | succ f₂' => simp [readsGo]
      · have hslen : 0 < s.length := List.length_pos.mpr hs
        cases f₂ with
        | zero =>
          exfalso
          simp only [List.map_cons, List.sum_cons] at h2
          omega
        | succ f₂' =>
          have hcpos : 0 < c := Nat.pos_of_ne_zero hc
          simp only [List.map_cons, List.sum_cons] at h1 h2
          simp only [readsGo, if_neg (show ¬(c = 0 ∨ s = []) by simp [hc, hs])]
          congr 1
          by_cases hd : s.drop c = []
          · rw [if_pos hd]
            have hdlen : s.length - c = 0 := by
              have := List.length_drop c s
              rw [hd] at this
              simpa using this.symm
            apply ih
            · omega
            · omega
          · rw [if_neg hd]
            have hdlen : (s.drop c).length = s.length - c := List.length_drop c s
            apply ih
            · simp only [List.map_cons, List.sum_cons, hdlen]
              omega
            · simp only [List.map_cons, List.sum_cons, hdlen]
              omega

theorem readsOf_nil (c : Nat) : readsOf c [] = [] := rfl

theorem readsOf_stop (c : Nat) (s : List Nat) (rest : List (List Nat))
    (h : c = 0 ∨ s = []) : readsOf c (s :: rest) = [] := by
  unfold readsOf
  cases hsum : (List.map List.length (s :: rest)).sum with
  | zero => rfl
  | succ n => simp [readsGo, h]

theorem readsOf_cons (c : Nat) (hc : c ≠ 0) (s : List Nat) (hs : s ≠ [])
    (rest : List (List Nat)) :
    readsOf c (s :: rest)
      = s.take c :: readsOf c (if s.drop c = [] then rest else s.drop c :: rest) := by
  have hslen : 0 < s.length := List.length_pos.mpr hs
  have hcpos : 0 < c := Nat.pos_of_ne_zero hc
  unfold readsOf
  obtain ⟨n, hn⟩ : ∃ n, (List.map List.length (s :: rest)).sum = n + 1 := by
    refine ⟨(List.map List.length (s :: rest)).sum - 1, ?_⟩
    simp only [List.map_cons, List.sum_cons]
    omega
  rw [hn]
  simp only [readsGo, if_neg (show ¬(c = 0 ∨ s = []) by simp [hc, hs])]
  congr 1
  simp only [List.map_cons, List.sum_cons] at hn
  by_cases hd : s.drop c = []
  · rw [if_pos hd]
    have hdlen : s.length - c = 0 := by
      have := List.length_drop c s
      rw [hd] at this
      simpa using this.symm
    apply readsGo_congr c hc
    · omega
    · exact le_rfl
  · rw [if_neg hd]
    have hdlen : (s.drop c).length = s.length - c := List.length_drop c s
    apply readsGo_congr c hc
    · simp only [List.map_cons, List.sum_cons, hdlen]
      omega
    · exact le_rfl

theorem readsGo_flatten (c : Nat) (hc : c ≠ 0) :
    ∀ f (src : List (List Nat)), (src.map List.length).sum ≤ f →
      (∀ s ∈ src, s ≠ []) → (readsGo c f src).flatten = src.flatten := by
  intro f
  induction f with
  | zero =>
    intro src h1 hsrc
    cases src with
    | nil => rfl
    | cons s rest =>
      exfalso
      have hs : s ≠ [] := hsrc s (List.mem_cons_self s rest)
      have hslen : 0 < s.length := List.length_pos.mpr hs
      simp only [List.map_cons, List.sum_cons] at h1
      omega
  | succ f ih =>
    intro src h1 hsrc
    cases src with
    | nil => rfl
    | cons s rest =>
      have hs : s ≠ [] := hsrc s (List.mem_cons_self s rest)
      have hslen : 0 < s.length := List.length_pos.mpr hs
      have hcpos : 0 < c := Nat.pos_of_ne_zero hc
      simp only [List.map_cons, List.sum_cons] at h1
      simp only [readsGo, if_neg (show ¬(c = 0 ∨ s = []) by simp [hc, hs])]
      by_cases hd : s.drop c = []
      · rw [if_pos hd]
        have htake : s.take c = s := by
          have := List.take_append_drop c s
          rw [hd] at this
          simpa using this
        have ihr := ih rest (by omega) (fun t ht => hsrc t (List.mem_cons_of_mem s ht))
        simp [htake, ihr]
      · rw [if_neg hd]
        have hdlen : (s.drop c).length = s.length - c := List.length_drop c s
        have ihr := ih (s.drop c :: rest) (by
          simp only [List.map_cons, List.sum_cons, hdlen]
          omega) (by
          intro t ht
          rcases List.mem_cons.mp ht with rfl | hmem
          · exact hd
          · exact hsrc t (List.mem_cons_of_mem s hmem))
        simp only [List.flatten_cons] at ihr ⊢
        rw [ihr, ← List.append_assoc, List.take_append_drop]

theorem readsOf_flatten (c : Nat) (hc : c ≠ 0) (src : List (List Nat))
    (hsrc : ∀ s ∈ src, s ≠ []) : (readsOf c src).flatten = src.flatten :=
  readsGo_flatten c hc (src.map List.length).sum src le_rfl hsrc

theorem readsGo_zero (c : Nat) (src : List (List Nat)) : readsGo c 0 src = [] := by
  cases src <;> rfl

theorem readsGo_ne_nil (c : Nat) (hc : c ≠ 0) :
    ∀ f (src : List (List Nat)), ∀ x ∈ readsGo c f src, x ≠ [] := by
  intro f
  induction f with
  | zero =>
    intro src x hx
    rw [readsGo_zero] at hx
    simp at hx
  | succ f ih =>
    intro src x hx
    cases src with
    | nil => simp [readsGo_nil] at hx
    | cons s rest =>
      by_cases hstop : c = 0 ∨ s = []
      · rw [show readsGo c (f + 1) (s :: rest) = [] by simp [readsGo, hstop]] at hx
        simp at hx
      · push_neg at hstop
        simp only [readsGo, if_neg (show ¬(c = 0 ∨ s = []) by simp [hstop.1, hstop.2])] at hx
        rcases List.mem_cons.mp hx with rfl | hmem
        · simp [List.take_eq_nil_iff, hstop.1, hstop.2]
        · exact ih _ x hmem

theorem readsOf_ne_nil (c : Nat) (hc : c ≠ 0) (src : List (List Nat)) :
    ∀ x ∈ readsOf c src, x ≠ [] :=
  readsGo_ne_nil c hc (src.map List.length).sum src

theorem readsOf_single (c : Nat) (hc : c ≠ 0) (l : List Nat) :
    readsOf c [l] = chunksList c l := by
  by_cases hl : l = []
  · subst hl
    rw [readsOf_stop c [] [] (Or.inr rfl), chunksList_nil]
  · have hcpos : 0 < c := Nat.pos_of_ne_zero hc
    have hllen : 0 < l.length := List.length_pos.mpr hl
    rw [readsOf_cons c hc l hl [], chunksList_cons c hc l hl]
    congr 1
    by_cases hd : l.drop c = []
    · rw [if_pos hd, hd, readsOf_nil, chunksList_nil]
    · rw [if_neg hd]
      exact readsOf_single c hc (l.drop c)
termination_by l.length
decreasing_by
  simp only [List.length_drop]
  omega

theorem chunksList_ne_nil (c : Nat) (hc : c ≠ 0) (l : List Nat) :
    ∀ x ∈ chunksList c l, x ≠ [] := by
  by_cases hl : l = []
  · subst hl
    simp [chunksList_nil]
  · rw [chunksList_cons c hc l hl]
    intro x hx
    rcases List.mem_cons.mp hx with rfl | hmem
    · simp [List.take_eq_nil_iff, hc, hl]
    · exact chunksList_ne_nil c hc (l.drop c) x hmem
termination_by l.length
decreasing_by
  have h1 : 0 < l.length := List.length_pos.mpr hl
  have h2 : 0 < c := Nat.pos_of_ne_zero hc
  simp only [List.length_drop]
  omega

/-! Shapes of the full orchestrator runs under the oracle behaviours the
claims quantify over. -/

theorem with_request_singlePart_trace (gw : Gateway) (request : CreateFileUploadRequest)
    (data : List Nat) (u : FileUpload) (hcreate : gw.createResult = Except.ok u)
    (hmode : request.mode = UploadMode.singlePart) :
    (upload_file_with_request gw request data).1
      = [Event.createCall request,
         Event.sendCall u.id
           (SendFileUploadRequest.single_part request.filename request.content_type data)] := by
  unfold upload_file_with_request
  rw [hcreate, hmode]
  cases h : gw.sendResult 0 <;> simp

theorem with_request_multiPart_allOk (gw : Gateway) (request : CreateFileUploadRequest)
    (data : List Nat) (u v : FileUpload) (hcreate : gw.createResult = Except.ok u)
    (hsend : ∀ i, gw.sendResult i = Except.ok ())
    (hcomplete : gw.completeResult = Except.ok v)
    (hmode : request.mode = UploadMode.multiPart) :
    upload_file_with_request gw request data
      = (Event.createCall request ::
          (mkSendEvents u.id request.filename request.content_type
              (chunksList CHUNK_SIZE data) 1
            ++ [Event.completeCall u.id]), Except.ok v) := by
  unfold upload_file_with_request
  rw [hcreate, hmode]
  simp [sendParts_allOk gw u.id request.filename request.content_type hsend, hcomplete]

theorem with_request_multiPart_failAt (gw : Gateway) (request : CreateFileUploadRequest)
    (data : List Nat) (u : FileUpload) (e : NotionClientError) (m : Nat)
    (hcreate : gw.createResult = Except.ok u)
    (hm : m < (chunksList CHUNK_SIZE data).length)
    (hok : ∀ i, i < m → gw.sendResult i = Except.ok ())
    (herr : gw.sendResult m = Except.error e)
    (hmode : request.mode = UploadMode.multiPart) :
    upload_file_with_request gw request data
      = (Event.createCall request ::
          mkSendEvents u.id request.filename request.content_type
            ((chunksList CHUNK_SIZE data).take (m + 1)) 1, Except.error e) := by
  unfold upload_file_with_request
  rw [hcreate, hmode]
  have hfail := sendParts_failAt gw u.id request.filename request.content_type e
    (chunksList CHUNK_SIZE data) m 1 0 hm
    (by intro i hi; simpa using hok i hi) (by simpa using herr)
  simp [hfail]

theorem with_stream_singlePart_trace (gw : Gateway) (src : List (List Nat))
    (request : CreateFileUploadRequest) (config : StreamingUploadConfig) (u : FileUpload)
    (hcreate : gw.createResult = Except.ok u)
    (hmode : request.mode = UploadMode.singlePart) :
    (upload_file_with_stream gw src request config).1
      = [Event.createCall request,
         Event.sendCall u.id
           (SendFileUploadRequest.single_part config.filename config.content_type
             src.flatten)] := by
  unfold upload_file_with_stream
  rw [hcreate, hmode]
  cases h : gw.sendResult 0 <;> simp

theorem with_stream_multiPart_allOk (gw : Gateway) (src : List (List Nat))
    (request : CreateFileUploadRequest) (config : StreamingUploadConfig) (u v : FileUpload)
    (hcreate : gw.createResult = Except.ok u)
    (hsend : ∀ i, gw.sendResult i = Except.ok ())
    (hcomplete : gw.completeResult = Except.ok v)
    (hmode : request.mode = UploadMode.multiPart) :
    upload_file_with_stream gw src request config
      = (Event.createCall request ::
          (mkSendEvents u.id config.filename config.content_type
              (readsOf config.chunk_size src) 1
            ++ [Event.completeCall u.id]), Except.ok v) := by
  unfold upload_file_with_stream
  rw [hcreate, hmode]
  simp [sendParts_allOk gw u.id config.filename config.content_type hsend, hcomplete]

theorem with_stream_multiPart_failAt (gw : Gateway) (src : List (List Nat))
    (request : CreateFileUploadRequest) (config : StreamingUploadConfig) (u : FileUpload)
    (e : NotionClientError) (m : Nat)
    (hcreate : gw.createResult = Except.ok u)
    (hm : m < (readsOf config.chunk_size src).length)
    (hok : ∀ i, i < m → gw.sendResult i = Except.ok ())
    (herr : gw.sendResult m = Except.error e)
    (hmode : request.mode = UploadMode.multiPart) :
    upload_file_with_stream gw src request config
      = (Event.createCall request ::
          mkSendEvents u.id config.filename config.content_type
            ((readsOf config.chunk_size src).take (m + 1)) 1, Except.error e) := by
  unfold upload_file_with_stream
  rw [hcreate, hmode]
  have hfail := sendParts_failAt gw u.id config.filename config.content_type e
    (readsOf config.chunk_size src) m 1 0 hm
    (by intro i hi; simpa using hok i hi) (by simpa using herr)
  simp [hfail]

theorem range_map_mod (pn n : Nat) (h : pn + n ≤ U32_MOD) :
    (List.range' pn n).map (fun k => k % U32_MOD) = List.range' pn n := by
  have hmem : ∀ x ∈ List.range' pn n, (fun k => k % U32_MOD) x = id x := by
    intro x hx
    have hb := List.mem_range'_1.mp hx
    simp only [id]
    exact Nat.mod_eq_of_lt (by omega)
  rw [List.map_congr_left hmem, List.map_id]

theorem with_stream_trace_head (gw : Gateway) (src : List (List Nat))
    (request : CreateFileUploadRequest) (config : StreamingUploadConfig) :
    (upload_file_with_stream gw src request config).1.head?
      = some (Event.createCall request) := by
  unfold upload_file_with_stream
  cases gw.createResult with
  | error e => rfl
  | ok u =>
    cases hmode : request.mode with
    | singlePart => cases gw.sendResult 0 <;> rfl
    | multiPart =>
      dsimp only
      cases h2 : (sendParts gw u.id config.filename config.content_type
          (readsOf config.chunk_size src) 1 0).2 with
      | some e => rfl
      | none => cases gw.completeResult <;> rfl

theorem readsOf_zero (src : List (List Nat)) : readsOf 0 src = [] := by
  cases src with
  | nil => rfl
  | cons s rest => exact readsOf_stop 0 s rest (Or.inl rfl)

theorem with_stream_multiPart_emptyReads (gw : Gateway) (src : List (List Nat))
    (request : CreateFileUploadRequest) (config : StreamingUploadConfig)
    (u v : FileUpload) (hcreate : gw.createResult = Except.ok u)
    (hcomplete : gw.completeResult = Except.ok v)
    (hmode : request.mode = UploadMode.multiPart)
    (hempty : readsOf config.chunk_size src = []) :
    upload_file_with_stream gw src request config
      = ([Event.createCall request, Event.completeCall u.id], Except.ok v) := by
  unfold upload_file_with_stream
  rw [hcreate, hmode]
  simp [hempty, sendParts, hcomplete]

/-- C1: for upload_file_auto the buffer length plays the role of the known
size, and the built request selects SinglePart exactly below the 20 MiB
threshold; for upload_file_auto_stream a known configured size selects by
the same threshold and an unknown size always selects MultiPart. -/
theorem auto_mode_selection (filename content_type : String) (data : List Nat)
    (config : StreamingUploadConfig) :
    ((upload_file_auto_request filename content_type data).mode
        = if data.length < MULTIPART_THRESHOLD then UploadMode.singlePart
          else UploadMode.multiPart)
    ∧ ((upload_file_auto_stream_request config).mode
        = match config.total_size with
          | some s =>
            if s < MULTIPART_THRESHOLD then UploadMode.singlePart else UploadMode.multiPart
          | none => UploadMode.multiPart) := by
  constructor
  · simp only [upload_file_auto_request, CreateFileUploadRequest.new]
    by_cases h : data.length < MULTIPART_THRESHOLD
    · rw [if_neg (by omega), if_pos h]
    · rw [if_pos (by omega), if_neg h]
  · cases htot : config.total_size with
    | none => simp [upload_file_auto_stream_request, CreateFileUploadRequest.new, htot]
    | some s =>
      simp only [upload_file_auto_stream_request, CreateFileUploadRequest.new, htot]
      by_cases h : s < MULTIPART_THRESHOLD
      · rw [if_neg (by omega), if_pos h]
      · rw [if_pos (by omega), if_neg h]

/-- C4: upload_file_single_part_stream with an unknown total size returns the
InvalidInput configuration error with an empty trace, so neither
create_file_upload nor send_file_upload is ever invoked. -/
theorem single_part_stream_unknown_size_rejected (gw : Gateway) (src : List (List Nat))
    (config : StreamingUploadConfig) (h : config.total_size = none) :
    upload_file_single_part_stream gw src config
      = ([], Except.error (NotionClientError.ioError IoErrorKind.invalidInput
          singlePartUnknownSizeMessage)) := by
  unfold upload_file_single_part_stream
  rw [h]

/-- Witness for C4 at a concrete unknown-size configuration. -/
theorem single_part_stream_unknown_size_rejected_witness :
    (StreamingUploadConfig.for_unknown_size "data.bin" "application/octet-stream").total_size
        = none
    ∧ upload_file_single_part_stream allOkGateway [[1, 2, 3]]
        (StreamingUploadConfig.for_unknown_size "data.bin" "application/octet-stream")
      = ([], Except.error (NotionClientError.ioError IoErrorKind.invalidInput
          singlePartUnknownSizeMessage)) :=
  ⟨rfl, single_part_stream_unknown_size_rejected allOkGateway [[1, 2, 3]]
    (StreamingUploadConfig.for_unknown_size "data.bin" "application/octet-stream") rfl⟩

/-- C5: a SinglePart buffer upload whose create call succeeds issues exactly
one send_file_upload call, whose request has part_number = none and carries
exactly the input bytes. -/
theorem single_part_sends_once (gw : Gateway) (request : CreateFileUploadRequest)
    (data : List Nat) (u : FileUpload)
    (hcreate : gw.createResult = Except.ok u)
    (hmode : request.mode = UploadMode.singlePart) :
    sendEvents (upload_file_with_request gw request data).1
      = [{ filename := request.filename, content_type := request.content_type,
           file_data := data, part_number := none }] := by
  rw [with_request_singlePart_trace gw request data u hcreate hmode]
  simp [SendFileUploadRequest.single_part]

/-- Witness for C5 with a 1024-byte buffer. -/
theorem single_part_sends_once_witness :
    allOkGateway.createResult = Except.ok ⟨"upload-1", FileUploadStatus.pending⟩
    ∧ sendEvents (upload_file_with_request allOkGateway
        (CreateFileUploadRequest.new "doc.pdf" "application/pdf" 1024 UploadMode.singlePart)
        (List.replicate 1024 7)).1
      = [{ filename := "doc.pdf", content_type := "application/pdf",
           file_data := List.replicate 1024 7, part_number := none }] :=
  ⟨rfl, single_part_sends_once allOkGateway
    (CreateFileUploadRequest.new "doc.pdf" "application/pdf" 1024 UploadMode.singlePart)
    (List.replicate 1024 7) ⟨"upload-1", FileUploadStatus.pending⟩ rfl rfl⟩

/-- C7: a MultiPart stream upload whose source yields zero bytes still opens
the session and still calls complete_file_upload, with zero send calls in
between, and returns the completed upload. -/
theorem empty_stream_multipart_completes (gw : Gateway) (src : List (List Nat))
    (config : StreamingUploadConfig) (u v : FileUpload)
    (hcreate : gw.createResult = Except.ok u)
    (hcomplete : gw.completeResult = Except.ok v)
    (hempty : readsOf config.chunk_size src = []) :
    upload_file_multi_part_stream gw src config
      = ([Event.createCall (CreateFileUploadRequest.new config.filename config.content_type
            (config.total_size.getD 0) UploadMode.multiPart),
          Event.completeCall u.id], Except.ok v) := by
  unfold upload_file_multi_part_stream
  exact with_stream_multiPart_emptyReads gw src _ config u v hcreate hcomplete rfl hempty

/-- Witness for C7 at an empty source. -/
theorem empty_stream_multipart_completes_witness :
    readsOf (StreamingUploadConfig.for_unknown_size "s.bin" "application/octet-stream").chunk_size
        [] = []
    ∧ upload_file_multi_part_stream allOkGateway []
        (StreamingUploadConfig.for_unknown_size "s.bin" "application/octet-stream")
      = ([Event.createCall (CreateFileUploadRequest.new "s.bin" "application/octet-stream" 0
            UploadMode.multiPart),
          Event.completeCall "upload-1"], Except.ok ⟨"upload-1", FileUploadStatus.complete⟩) :=
  ⟨rfl, empty_stream_multipart_completes allOkGateway []
    (StreamingUploadConfig.for_unknown_size "s.bin" "application/octet-stream")
    ⟨"upload-1", FileUploadStatus.pending⟩ ⟨"upload-1", FileUploadStatus.complete⟩
    rfl rfl rfl⟩

/-- C8 counterexample: with chunk_size = 0 and a non-empty source, the
multi-part stream upload does not fail at all: it returns success with zero
send calls, so no ConfigurationInvalid (or any other) error is produced. -/
theorem chunk_size_zero_cex :
    (upload_file_multi_part_stream allOkGateway [[1, 2, 3]]
        ((StreamingUploadConfig.new "f.bin" "application/octet-stream" 3).with_chunk_size 0)).2
      = Except.ok ⟨"upload-1", FileUploadStatus.complete⟩
    ∧ sendEvents (upload_file_multi_part_stream allOkGateway [[1, 2, 3]]
        ((StreamingUploadConfig.new "f.bin" "application/octet-stream" 3).with_chunk_size 0)).1
      = [] := by
  constructor
  · rfl
  · rfl

/-- C8 amended: the code never validates chunk_size; with chunk_size = 0
every read returns 0 bytes, so a MultiPart stream upload treats any source
as empty, opens and completes the session with zero parts sent, and returns
success instead of a ConfigurationInvalid error. -/
theorem chunk_size_zero_proceeds (gw : Gateway) (src : List (List Nat))
    (config : StreamingUploadConfig) (u v : FileUpload)
    (hchunk : config.chunk_size = 0)
    (hcreate : gw.createResult = Except.ok u)
    (hcomplete : gw.completeResult = Except.ok v) :
    upload_file_multi_part_stream gw src config
      = ([Event.createCall (CreateFileUploadRequest.new config.filename config.content_type
            (config.total_size.getD 0) UploadMode.multiPart),
          Event.completeCall u.id], Except.ok v) := by
  unfold upload_file_multi_part_stream
  apply with_stream_multiPart_emptyReads gw src _ config u v hcreate hcomplete rfl
  rw [hchunk]
  exact readsOf_zero src

/-- Witness for the C8 amended theorem at chunk_size = 0 over a non-empty
source. -/
theorem chunk_size_zero_proceeds_witness :
    ((StreamingUploadConfig.new "f.bin" "application/octet-stream" 3).with_chunk_size 0).chunk_size
        = 0
    ∧ upload_file_multi_part_stream allOkGateway [[1, 2, 3]]
        ((StreamingUploadConfig.new "f.bin" "application/octet-stream" 3).with_chunk_size 0)
      = ([Event.createCall (CreateFileUploadRequest.new "f.bin" "application/octet-stream" 3
            UploadMode.multiPart),
          Event.completeCall "upload-1"], Except.ok ⟨"upload-1", FileUploadStatus.complete⟩) :=
  ⟨rfl, chunk_size_zero_proceeds allOkGateway [[1, 2, 3]]
    ((StreamingUploadConfig.new "f.bin" "application/octet-stream" 3).with_chunk_size 0)
    ⟨"upload-1", FileUploadStatus.pending⟩ ⟨"upload-1", FileUploadStatus.complete⟩
    rfl rfl rfl⟩

/-- C9: upload_file_auto on the empty buffer selects SinglePart and, when the
create call succeeds, issues exactly one send carrying empty file_data with
part_number = none. -/
theorem empty_buffer_auto_single_part (gw : Gateway) (fn ct : String) (u : FileUpload)
    (hcreate : gw.createResult = Except.ok u) :
    (upload_file_auto_request fn ct []).mode = UploadMode.singlePart
    ∧ sendEvents (upload_file_auto gw fn ct []).1
        = [{ filename := fn, content_type := ct, file_data := [], part_number := none }] := by
  constructor
  · rfl
  · rw [show upload_file_auto gw fn ct []
        = upload_file_with_request gw (upload_file_auto_request fn ct []) [] from rfl]
    rw [with_request_singlePart_trace gw (upload_file_auto_request fn ct []) [] u hcreate rfl]
    rfl

/-- Witness for C9 with the all-ok gateway. -/
theorem empty_buffer_auto_single_part_witness :
    allOkGateway.createResult = Except.ok ⟨"upload-1", FileUploadStatus.pending⟩
    ∧ (upload_file_auto_request "empty.txt" "text/plain" []).mode = UploadMode.singlePart
    ∧ sendEvents (upload_file_auto allOkGateway "empty.txt" "text/plain" []).1
        = [{ filename := "empty.txt", content_type := "text/plain",
             file_data := [], part_number := none }] :=
  ⟨rfl, empty_buffer_auto_single_part allOkGateway "empty.txt" "text/plain"
    ⟨"upload-1", FileUploadStatus.pending⟩ rfl⟩

/-- C10: upload_stream_unknown_size always builds its create request with
content_length = 0 and MultiPart mode, whatever config.total_size holds, and
that request is what the create_file_upload call receives. -/
theorem unknown_size_request_zero_length (gw : Gateway) (src : List (List Nat))
    (config : StreamingUploadConfig) (n : Nat) :
    (upload_stream_unknown_size_request config).content_length = 0
    ∧ (upload_stream_unknown_size_request { config with total_size := some n }).content_length
        = 0
    ∧ (upload_stream_unknown_size gw src config).1.head?
        = some (Event.createCall (CreateFileUploadRequest.new config.filename
            config.content_type 0 UploadMode.multiPart)) := by
  refine ⟨rfl, rfl, ?_⟩
  exact with_stream_trace_head gw src
    (CreateFileUploadRequest.new config.filename config.content_type 0 UploadMode.multiPart)
    config

theorem sendEvents_wrap (req : CreateFileUploadRequest) (uid : String) (t : List Event) :
    sendEvents (Event.createCall req :: (t ++ [Event.completeCall uid])) = sendEvents t := by
  simp

theorem partNumbers_wrap (req : CreateFileUploadRequest) (uid : String) (t : List Event) :
    partNumbers (Event.createCall req :: (t ++ [Event.completeCall uid])) = partNumbers t := by
  simp [partNumbers]

theorem sentBytes_wrap (req : CreateFileUploadRequest) (uid : String) (t : List Event) :
    sentBytes (Event.createCall req :: (t ++ [Event.completeCall uid])) = sentBytes t := by
  simp [sentBytes]

theorem partNumbers_cons_create (req : CreateFileUploadRequest) (t : List Event) :
    partNumbers (Event.createCall req :: t) = partNumbers t := by
  simp [partNumbers]

/-- C2 counterexample: a source that delivers one byte per read (which the
AsyncRead contract allows) with chunk size 5 and 2 total bytes produces part
numbers [1, 2], not 1 .. ceil(2 / 5) = [1]. -/
theorem stream_part_numbers_cex :
    partNumbers (upload_file_multi_part_stream allOkGateway [[7], [7]]
        ((StreamingUploadConfig.new "f.bin" "application/octet-stream" 2).with_chunk_size 5)).1
      = [1, 2]
    ∧ sentBytes (upload_file_multi_part_stream allOkGateway [[7], [7]]
        ((StreamingUploadConfig.new "f.bin" "application/octet-stream" 2).with_chunk_size 5)).1
      = [7, 7]
    ∧ (2 + 5 - 1) / 5 = 1
    ∧ partNumbers (upload_file_multi_part_stream allOkGateway [[7], [7]]
        ((StreamingUploadConfig.new "f.bin" "application/octet-stream" 2).with_chunk_size 5)).1
      ≠ List.range' 1 ((2 + 5 - 1) / 5) := by
  refine ⟨by decide, by decide, by decide, by decide⟩

/-- C2 amended: for every MultiPart upload the part numbers passed to
send_file_upload are exactly 1, 2, ..., N with no gaps or repeats.  For a
buffer upload N = ceil(length / CHUNK_SIZE); for a stream upload N is the
number of non-empty reads, which equals ceil(totalBytesRead / chunk_size)
whenever every read fills the chunk buffer except possibly the last — in
particular when the source delivers its bytes as one contiguous segment —
but can exceed that bound when the reader returns short reads. -/
theorem multipart_part_numbers_contiguous
    (gw : Gateway) (fn ct : String) (data sdata : List Nat) (src : List (List Nat))
    (config : StreamingUploadConfig) (u v : FileUpload)
    (hcreate : gw.createResult = Except.ok u)
    (hsend : ∀ i, gw.sendResult i = Except.ok ())
    (hcomplete : gw.completeResult = Except.ok v)
    (hbuf : (data.length + CHUNK_SIZE - 1) / CHUNK_SIZE + 1 ≤ U32_MOD)
    (hstream : (readsOf config.chunk_size src).length + 1 ≤ U32_MOD)
    (hc : config.chunk_size ≠ 0)
    (hsd : (sdata.length + config.chunk_size - 1) / config.chunk_size + 1 ≤ U32_MOD) :
    partNumbers (upload_file_multi_part gw fn ct data).1
      = List.range' 1 ((data.length + CHUNK_SIZE - 1) / CHUNK_SIZE)
    ∧ partNumbers (upload_file_multi_part_stream gw src config).1
      = List.range' 1 (readsOf config.chunk_size src).length
    ∧ partNumbers (upload_file_multi_part_stream gw [sdata] config).1
      = List.range' 1 ((sdata.length + config.chunk_size - 1) / config.chunk_size) := by
  have hlen := chunksList_length CHUNK_SIZE (by decide) data
  refine ⟨?_, ?_, ?_⟩
  · rw [show upload_file_multi_part gw fn ct data
        = upload_file_with_request gw
            (CreateFileUploadRequest.new fn ct data.length UploadMode.multiPart) data from rfl]
    rw [with_request_multiPart_allOk gw _ data u v hcreate hsend hcomplete rfl]
    rw [partNumbers_wrap, mkSendEvents_partNumbers, hlen]
    exact range_map_mod 1 _ (by omega)
  · rw [show upload_file_multi_part_stream gw src config
        = upload_file_with_stream gw src
            (CreateFileUploadRequest.new config.filename config.content_type
              (config.total_size.getD 0) UploadMode.multiPart) config from rfl]
    rw [with_stream_multiPart_allOk gw src _ config u v hcreate hsend hcomplete rfl]
    rw [partNumbers_wrap, mkSendEvents_partNumbers]
    exact range_map_mod 1 _ (by omega)
  · rw [show upload_file_multi_part_stream gw [sdata] config
        = upload_file_with_stream gw [sdata]
            (CreateFileUploadRequest.new config.filename config.content_type
              (config.total_size.getD 0) UploadMode.multiPart) config from rfl]
    rw [with_stream_multiPart_allOk gw [sdata] _ config u v hcreate hsend hcomplete rfl]
    rw [partNumbers_wrap, mkSendEvents_partNumbers, readsOf_single config.chunk_size hc sdata,
      chunksList_length config.chunk_size hc sdata]
    exact range_map_mod 1 _ (by omega)

/-- Witness for the C2 amended theorem: chunk size 3 with a 3-byte buffer, a
one-byte-per-read three-segment source, and a 7-byte single-segment source. -/
theorem multipart_part_numbers_contiguous_witness :
    partNumbers (upload_file_multi_part allOkGateway "f.bin" "application/octet-stream"
        [1, 2, 3]).1
      = List.range' 1 ((([1, 2, 3] : List Nat).length + CHUNK_SIZE - 1) / CHUNK_SIZE)
    ∧ partNumbers (upload_file_multi_part_stream allOkGateway [[1], [2], [3]]
        ((StreamingUploadConfig.new "s.bin" "application/octet-stream" 7).with_chunk_size 3)).1
      = List.range' 1 (readsOf
          ((StreamingUploadConfig.new "s.bin" "application/octet-stream" 7).with_chunk_size
            3).chunk_size [[1], [2], [3]]).length
    ∧ partNumbers (upload_file_multi_part_stream allOkGateway [[1, 2, 3, 4, 5, 6, 7]]
        ((StreamingUploadConfig.new "s.bin" "application/octet-stream" 7).with_chunk_size 3)).1
      = List.range' 1 ((([1, 2, 3, 4, 5, 6, 7] : List Nat).length
          + ((StreamingUploadConfig.new "s.bin" "application/octet-stream" 7).with_chunk_size
              3).chunk_size - 1)
          / ((StreamingUploadConfig.new "s.bin" "application/octet-stream" 7).with_chunk_size
              3).chunk_size) :=
  multipart_part_numbers_contiguous allOkGateway "f.bin" "application/octet-stream"
    [1, 2, 3] [1, 2, 3, 4, 5, 6, 7] [[1], [2], [3]]
    ((StreamingUploadConfig.new "s.bin" "application/octet-stream" 7).with_chunk_size 3)
    ⟨"upload-1", FileUploadStatus.pending⟩ ⟨"upload-1", FileUploadStatus.complete⟩
    rfl (fun _ => rfl) rfl (by decide) (by decide) (by decide) (by decide)

/-- C3: when the k-th send of a MultiPart upload fails, the run makes
exactly k send calls (the k-1 earlier successes and the failing one, with
part numbers 1 .. k and no retry), makes no complete_file_upload call, and
surfaces the failing send's error as its result; stated for the buffer
orchestrator and the stream orchestrator, each with its own gateway. -/
theorem send_failure_aborts
    (gw₁ gw₂ : Gateway) (fn ct : String) (data : List Nat) (src : List (List Nat))
    (config : StreamingUploadConfig) (u₁ u₂ : FileUpload) (e₁ e₂ : NotionClientError)
    (k₁ k₂ : Nat)
    (hcreate₁ : gw₁.createResult = Except.ok u₁)
    (hk₁ : 1 ≤ k₁) (hm₁ : k₁ ≤ (chunksList CHUNK_SIZE data).length)
    (hok₁ : ∀ i, i < k₁ - 1 → gw₁.sendResult i = Except.ok ())
    (herr₁ : gw₁.sendResult (k₁ - 1) = Except.error e₁)
    (hb₁ : k₁ + 1 ≤ U32_MOD)
    (hcreate₂ : gw₂.createResult = Except.ok u₂)
    (hk₂ : 1 ≤ k₂) (hm₂ : k₂ ≤ (readsOf config.chunk_size src).length)
    (hok₂ : ∀ i, i < k₂ - 1 → gw₂.sendResult i = Except.ok ())
    (herr₂ : gw₂.sendResult (k₂ - 1) = Except.error e₂)
    (hb₂ : k₂ + 1 ≤ U32_MOD) :
    ((upload_file_multi_part gw₁ fn ct data).2 = Except.error e₁
      ∧ (sendEvents (upload_file_multi_part gw₁ fn ct data).1).length = k₁
      ∧ completeCalls (upload_file_multi_part gw₁ fn ct data).1 = 0
      ∧ partNumbers (upload_file_multi_part gw₁ fn ct data).1 = List.range' 1 k₁)
    ∧ ((upload_file_multi_part_stream gw₂ src config).2 = Except.error e₂
      ∧ (sendEvents (upload_file_multi_part_stream gw₂ src config).1).length = k₂
      ∧ completeCalls (upload_file_multi_part_stream gw₂ src config).1 = 0
      ∧ partNumbers (upload_file_multi_part_stream gw₂ src config).1 = List.range' 1 k₂) := by
  have hmin₁ : min k₁ (chunksList CHUNK_SIZE data).length = k₁ := Nat.min_eq_left hm₁
  have hmin₂ : min k₂ (readsOf config.chunk_size src).length = k₂ := Nat.min_eq_left hm₂
  have hsucc₁ : k₁ - 1 + 1 = k₁ := by omega
  have hsucc₂ : k₂ - 1 + 1 = k₂ := by omega
  constructor
  · rw [show upload_file_multi_part gw₁ fn ct data
        = upload_file_with_request gw₁
            (CreateFileUploadRequest.new fn ct data.length UploadMode.multiPart) data from rfl]
    rw [with_request_multiPart_failAt gw₁ _ data u₁ e₁ (k₁ - 1) hcreate₁
      (by omega) hok₁ herr₁ rfl]
    rw [hsucc₁]
    refine ⟨rfl, ?_, ?_, ?_⟩
    · simp only [sendEvents_cons_create, mkSendEvents_sendCount, List.length_take, hmin₁]
    · simp only [completeCalls_cons_create, mkSendEvents_completeCalls]
    · rw [partNumbers_cons_create, mkSendEvents_partNumbers, List.length_take, hmin₁]
      exact range_map_mod 1 k₁ (by omega)
  · rw [show upload_file_multi_part_stream gw₂ src config
        = upload_file_with_stream gw₂ src
            (CreateFileUploadRequest.new config.filename config.content_type
              (config.total_size.getD 0) UploadMode.multiPart) config from rfl]
    rw [with_stream_multiPart_failAt gw₂ src _ config u₂ e₂ (k₂ - 1) hcreate₂
      (by omega) hok₂ herr₂ rfl]
    rw [hsucc₂]
    refine ⟨rfl, ?_, ?_, ?_⟩
    · simp only [sendEvents_cons_create, mkSendEvents_sendCount, List.length_take, hmin₂]
    · simp only [completeCalls_cons_create, mkSendEvents_completeCalls]
    · rw [partNumbers_cons_create, mkSendEvents_partNumbers, List.length_take, hmin₂]
      exact range_map_mod 1 k₂ (by omega)

/-- Gateway whose second send call fails, for the C3 witness. -/
def failSecondSendGateway : Gateway :=
  ⟨.ok ⟨"upload-1", FileUploadStatus.pending⟩,
   fun i => if i = 1 then .error (NotionClientError.remote 500) else .ok (),
   .ok ⟨"upload-1", FileUploadStatus.complete⟩⟩

/-- Gateway whose first send call fails, for the C3 witness. -/
def failFirstSendGateway : Gateway :=
  ⟨.ok ⟨"upload-1", FileUploadStatus.pending⟩,
   fun i => if i = 0 then .error (NotionClientError.remote 502) else .ok (),
   .ok ⟨"upload-1", FileUploadStatus.complete⟩⟩

/-- Witness for C3: the buffer path fails at its first (and only) send of a
small buffer; the stream path fails at the second of its three sends. -/
theorem send_failure_aborts_witness :
    ((upload_file_multi_part failFirstSendGateway "f.bin" "application/octet-stream"
        [1, 2, 3]).2 = Except.error (NotionClientError.remote 502)
      ∧ (sendEvents (upload_file_multi_part failFirstSendGateway "f.bin"
          "application/octet-stream" [1, 2, 3]).1).length = 1
      ∧ completeCalls (upload_file_multi_part failFirstSendGateway "f.bin"
          "application/octet-stream" [1, 2, 3]).1 = 0
      ∧ partNumbers (upload_file_multi_part failFirstSendGateway "f.bin"
          "application/octet-stream" [1, 2, 3]).1 = List.range' 1 1)
    ∧ ((upload_file_multi_part_stream failSecondSendGateway [[4], [5], [6]]
        ((StreamingUploadConfig.new "s.bin" "application/octet-stream" 3).with_chunk_size 1)).2
        = Except.error (NotionClientError.remote 500)
      ∧ (sendEvents (upload_file_multi_part_stream failSecondSendGateway [[4], [5], [6]]
          ((StreamingUploadConfig.new "s.bin" "application/octet-stream" 3).with_chunk_size
            1)).1).length = 2
      ∧ completeCalls (upload_file_multi_part_stream failSecondSendGateway [[4], [5], [6]]
          ((StreamingUploadConfig.new "s.bin" "application/octet-stream" 3).with_chunk_size
            1)).1 = 0
      ∧ partNumbers (upload_file_multi_part_stream failSecondSendGateway [[4], [5], [6]]
          ((StreamingUploadConfig.new "s.bin" "application/octet-stream" 3).with_chunk_size
            1)).1 = List.range' 1 2) :=
  send_failure_aborts failFirstSendGateway failSecondSendGateway
    "f.bin" "application/octet-stream" [1, 2, 3] [[4], [5], [6]]
    ((StreamingUploadConfig.new "s.bin" "application/octet-stream" 3).with_chunk_size 1)
    ⟨"upload-1", FileUploadStatus.pending⟩ ⟨"upload-1", FileUploadStatus.pending⟩
    (NotionClientError.remote 502) (NotionClientError.remote 500) 1 2
    rfl (by decide) (by decide) (fun i hi => by omega) rfl (by decide)
    rfl (by decide) (by decide)
    (fun i hi => by
      have : i = 0 := by omega
      subst this
      rfl)
    rfl (by decide)

/-- C6: splitting a byte sequence into the chunks a MultiPart upload
transmits and concatenating them in part-number (emission) order returns the
original sequence, for the chunking function itself, for the buffer
orchestrator's trace, and for the stream orchestrator's trace over a
single-segment source; no transmitted chunk is empty, so a final empty chunk
is omitted rather than sent.  This covers the empty sequence, sequences
within one chunk, and exact multiples of the chunk size. -/
theorem chunk_roundtrip
    (c : Nat) (hc : 0 < c) (data : List Nat) (fn ct : String)
    (gw : Gateway) (config : StreamingUploadConfig) (u v : FileUpload)
    (hcreate : gw.createResult = Except.ok u)
    (hsend : ∀ i, gw.sendResult i = Except.ok ())
    (hcomplete : gw.completeResult = Except.ok v)
    (hchunk : config.chunk_size = c) :
    (chunksList c data).flatten = data
    ∧ (∀ chunk ∈ chunksList c data, chunk ≠ [])
    ∧ sentBytes (upload_file_multi_part gw fn ct data).1 = data
    ∧ (∀ r ∈ sendEvents (upload_file_multi_part gw fn ct data).1, r.file_data ≠ [])
    ∧ sentBytes (upload_file_multi_part_stream gw [data] config).1 = data
    ∧ (∀ r ∈ sendEvents (upload_file_multi_part_stream gw [data] config).1,
        r.file_data ≠ []) := by
  have hcne : c ≠ 0 := by omega
  have hbuf : upload_file_multi_part gw fn ct data
      = (Event.createCall (CreateFileUploadRequest.new fn ct data.length UploadMode.multiPart)
          :: (mkSendEvents u.id fn ct (chunksList CHUNK_SIZE data) 1
            ++ [Event.completeCall u.id]), Except.ok v) :=
    with_request_multiPart_allOk gw _ data u v hcreate hsend hcomplete rfl
  have hstr : upload_file_multi_part_stream gw [data] config
      = (Event.createCall (CreateFileUploadRequest.new config.filename config.content_type
            (config.total_size.getD 0) UploadMode.multiPart)
          :: (mkSendEvents u.id config.filename config.content_type
              (readsOf config.chunk_size [data]) 1
            ++ [Event.completeCall u.id]), Except.ok v) :=
    with_stream_multiPart_allOk gw [data] _ config u v hcreate hsend hcomplete rfl
  refine ⟨chunksList_flatten c hcne data, chunksList_ne_nil c hcne data, ?_, ?_, ?_, ?_⟩
  · rw [hbuf, sentBytes_wrap, mkSendEvents_sentBytes]
    exact chunksList_flatten CHUNK_SIZE (by decide) data
  · rw [hbuf, sendEvents_wrap]
    intro r hr
    have hmem : r.file_data
        ∈ (sendEvents (mkSendEvents u.id fn ct (chunksList CHUNK_SIZE data) 1)).map
            (fun x => x.file_data) :=
      List.mem_map_of_mem _ hr
    rw [mkSendEvents_file_datas] at hmem
    exact chunksList_ne_nil CHUNK_SIZE (by decide) data _ hmem
  · rw [hstr, sentBytes_wrap, mkSendEvents_sentBytes, hchunk, readsOf_single c hcne data]
    exact chunksList_flatten c hcne data
  · rw [hstr, sendEvents_wrap]
    intro r hr
    have hmem : r.file_data
        ∈ (sendEvents (mkSendEvents u.id config.filename config.content_type
              (readsOf config.chunk_size [data]) 1)).map (fun x => x.file_data) :=
      List.mem_map_of_mem _ hr
    rw [mkSendEvents_file_datas, hchunk, readsOf_single c hcne data] at hmem
    exact chunksList_ne_nil c hcne data _ hmem

/-- Witness for C6 at chunk size 3 with a 6-byte sequence (an exact multiple
of the chunk size, so the boundary case of the omitted final empty chunk). -/
theorem chunk_roundtrip_witness :
    (chunksList 3 [1, 2, 3, 4, 5, 6]).flatten = [1, 2, 3, 4, 5, 6]
    ∧ (∀ chunk ∈ chunksList 3 [1, 2, 3, 4, 5, 6], chunk ≠ [])
    ∧ sentBytes (upload_file_multi_part allOkGateway "f.bin" "application/octet-stream"
        [1, 2, 3, 4, 5, 6]).1 = [1, 2, 3, 4, 5, 6]
    ∧ (∀ r ∈ sendEvents (upload_file_multi_part allOkGateway "f.bin"
        "application/octet-stream" [1, 2, 3, 4, 5, 6]).1, r.file_data ≠ [])
    ∧ sentBytes (upload_file_multi_part_stream allOkGateway [[1, 2, 3, 4, 5, 6]]
        ((StreamingUploadConfig.new "s.bin" "application/octet-stream" 6).with_chunk_size 3)).1
      = [1, 2, 3, 4, 5, 6]
    ∧ (∀ r ∈ sendEvents (upload_file_multi_part_stream allOkGateway [[1, 2, 3, 4, 5, 6]]
        ((StreamingUploadConfig.new "s.bin" "application/octet-stream" 6).with_chunk_size
          3)).1, r.file_data ≠ []) :=
  chunk_roundtrip 3 (by decide) [1, 2, 3, 4, 5, 6] "f.bin" "application/octet-stream"
    allOkGateway
    ((StreamingUploadConfig.new "s.bin" "application/octet-stream" 6).with_chunk_size 3)
    ⟨"upload-1", FileUploadStatus.pending⟩ ⟨"upload-1", FileUploadStatus.complete⟩
    rfl (fun _ => rfl) rfl rfl

end NotionUpload
